import Mathlib

/-!
# Verification of `litho` native VM-bridge core (`src/lib/fb/jni/Environment.cpp`)

Shallow embedding of the native-side bridge: per-thread caching and lazy
resolution of the JNI interop handle (`Environment::current`), process-wide
VM-handle registration, and the callback bridge (`JThreadScopeSupport`) that
runs a native closure through a managed round trip on a VM-attached thread.

Threads are identified by `Nat` thread ids; `JNIEnv*` values and `jmethodID`
values are opaque `Nat`s; nullable pointers are `Option Nat` with `none` for
`nullptr`. The VM runtime's per-thread attachment table (what `GetEnv` would
answer) is part of the modelled state, read-only for the registry.
-/

set_option autoImplicit false

namespace Litho

/-- Global plus per-thread state of the environment registry:
`g_env` is the `ThreadLocal<JNIEnv>` slot per thread id (`none` = empty slot /
`nullptr`), `g_vm` is the process-wide `JavaVM*` (`none` = `nullptr`, i.e. the
VM handle was never registered), and `vmAttached` is the VM runtime's own
attachment table: the `JNIEnv*` that `g_vm->GetEnv` resolves for a given
thread, or `none` when that thread is not attached to the JVM. -/
structure EnvState where
  g_env : Nat → Option Nat
  g_vm : Option Nat
  vmAttached : Nat → Option Nat

/-- `g_vm->GetEnv(&env, JNI_VERSION_1_6)`: a pure query of the VM's attachment
table for the calling thread; `none` models a non-`JNI_OK` return. It never
attaches the thread. -/
def getEnv (s : EnvState) (tid : Nat) : Option Nat :=
  s.vmAttached tid

/-- The diagnostic emitted by `FBLOGE` on the failed-resolution path of
`Environment::current`. -/
def notAttachedMsg : String :=
  "Error retrieving JNI Environment, thread is probably not attached to JVM"

/-- Result of one call to `Environment::current` on one thread: the returned
`JNIEnv*` (`none` = `nullptr`), the state after the call, how many `GetEnv`
queries were issued to the VM, and the log lines emitted. -/
structure CurrentResult where
  ret : Option Nat
  st : EnvState
  vmQueries : Nat
  logs : List String

/-- `Environment::current` (src/lib/fb/jni/Environment.cpp:51-55):
read the thread-local slot; only when it is `nullptr` AND `g_vm` is non-null,
query `GetEnv`; on a non-`JNI_OK` result log the not-attached diagnostic.
The function's tail is truncated in the source file; the failure return and
the success-path caching are modelled from the spec (§4.1 steps 3-4, and the
in-source TODO noting that failure currently does not throw): failure returns
the null env unchanged, success caches the resolved env in the thread-local
slot and returns it. -/
def current (tid : Nat) (s : EnvState) : CurrentResult :=
  let env := s.g_env tid
  if env = none ∧ s.g_vm ≠ none then
    match getEnv s tid with
    | none =>
      { ret := none, st := s, vmQueries := 1, logs := [notAttachedMsg] }
    | some e =>
      { ret := some e
        st := { s with g_env := fun t => if t = tid then some e else s.g_env t }
        vmQueries := 1
        logs := [] }
  else
    { ret := env, st := s, vmQueries := 0, logs := [] }

/-! ## VM-handle registration -/

/-- Failure taxonomy of the registration operation (spec §7 item (c)). -/
inductive RegisterError where
  | doubleRegistration
deriving DecidableEq

/-- Modelled from the spec: the code that writes `g_vm` (the
`Environment::initialize` / `registerVM` bootstrap) is not under `src/` — only
the definition `JavaVM* g_vm = nullptr;` is. Per spec §4.1, registration is
first-writer-wins: a repeat call with the same handle is an idempotent no-op,
and a call with a different handle is a programming error
(`DoubleRegistration`), never a silent overwrite. The argument and result are
the `g_vm` cell. -/
def registerVM (h : Nat) (g_vm : Option Nat) : Except RegisterError (Option Nat) :=
  match g_vm with
  | none => .ok (some h)
  | some h0 => if h0 = h then .ok (some h0) else .error .doubleRegistration

/-! ## Callback bridge (`JThreadScopeSupport`) -/

/-- `reinterpret_cast<jlong>(&func)`: the closure's address reinterpreted as a
64-bit `jlong` bit pattern. -/
def encodeToken (addr : Nat) : Nat := addr % 2 ^ 64

/-- `reinterpret_cast<std::function<void()>*>(ptr)`: the `jlong` token
reinterpreted back as a pointer. -/
def decodeToken (tok : Nat) : Nat := tok % 2 ^ 64

/-- Observable events of one `runStdFunction` round trip, in order:
the managed static-method invocation carrying the token, the managed-to-native
re-entry into `runStdFunctionImpl`, and the invocation of the closure stored
at a given address. -/
inductive Event where
  | dispatchCall (method : Nat) (token : Nat)
  | reentry (token : Nat)
  | closureInvoked (addr : Nat)
deriving DecidableEq

/-- Whether an event is an invocation of a native closure. -/
def Event.isClosureInvoked : Event → Bool
  | .closureInvoked _ => true
  | _ => false

/-- Failure taxonomy of the bridge (spec §7 item (b), plus the memory-safety
precondition of the raw-pointer token: a token that does not address a live
closure is the undefined-behaviour case of the `reinterpret_cast` pattern). -/
inductive BridgeError where
  | wiringFailure
  | invalidToken
deriving DecidableEq

/-- State the callback bridge runs over, for closures acting on a client
store of type `σ`: the environment-registry state, the cached `jmethodID` of
the managed dispatch method (the `static auto method` local of
`runStdFunction`, `none` before first use), the native heap mapping addresses
to the `std::function<void()>` objects living there, and the client store the
closures mutate. -/
structure BridgeState (σ : Type) where
  env : EnvState
  methodCache : Option Nat
  heap : Nat → Option (σ → σ)
  store : σ

/-- Result of a successful `runStdFunction` call: the event trace of the
round trip, the environment state in force while the closure executed
(`esDuring`), and the final bridge state. -/
structure RunResult (σ : Type) where
  events : List Event
  esDuring : EnvState
  final : BridgeState σ

/-- `JThreadScopeSupport::runStdFunctionImpl` (Environment.cpp:36-38):
`(*reinterpret_cast<std::function<void()>*>(ptr))();` — decode the token back
into the closure it addresses and invoke it once. A token addressing no live
closure is the undefined-behaviour case, surfaced as `invalidToken`. -/
def runStdFunctionImpl {σ : Type} (heap : Nat → Option (σ → σ)) (ptr : Nat)
    (store : σ) : Except BridgeError (σ × List Event) :=
  match heap (decodeToken ptr) with
  | some c => .ok (c store, [Event.closureInvoked (decodeToken ptr)])
  | none => .error .invalidToken

/-- The `static auto method = javaClassStatic()->getStaticMethod<void(jlong)>("runStdFunction")`
local of `runStdFunction`: read the cached `jmethodID` if already resolved,
otherwise resolve it on first use. `resolve` is the outcome of the managed
class/method lookup (external collaborator); a lookup failure is the fatal
`wiringFailure` (spec §4.2 error condition — the lookup internals are not
under `src/`). Returns the method to invoke and the cache after the call. -/
def resolveDispatchMethod (cache : Option Nat) (resolve : Except Unit Nat) :
    Except BridgeError (Nat × Option Nat) :=
  match cache with
  | some m => .ok (m, some m)
  | none =>
    match resolve with
    | .ok m => .ok (m, some m)
    | .error _ => .error .wiringFailure

/-- The attachment state in force while the managed call runs: a thread the
VM already reports attached is left as-is; an unattached calling thread is
attached for the duration of the call, receiving the env `attachEnv tid`. -/
def attachForCall (attachEnv : Nat → Nat) (tid : Nat) (es : EnvState) : EnvState :=
  match es.vmAttached tid with
  | some _ => es
  | none =>
    { es with
      vmAttached := fun t => if t = tid then some (attachEnv tid) else es.vmAttached t }

/-- The attachment state after the managed call returns: a thread that was
already attached stays attached; a thread the call attached implicitly is
detached again when the call's dynamic extent ends (the attach is scoped to
the call, per spec §4.2 step 3: "for the duration of the call"). -/
def restoreAfterCall (attachEnv : Nat → Nat) (tid : Nat) (es : EnvState) : EnvState :=
  match es.vmAttached tid with
  | some _ => attachForCall attachEnv tid es
  | none =>
    { attachForCall attachEnv tid es with
      vmAttached := fun t =>
        if t = tid then none else (attachForCall attachEnv tid es).vmAttached t }

/-- Modelled from the spec: the fbjni machinery that invokes a managed static
method from native code is not under `src/`. Per spec §4.2 step 3, the call
runs with the calling thread attached to the VM (`attachForCall`, `attachEnv
tid` being the `JNIEnv*` the VM hands a freshly attached thread), and per
step 4 the managed dispatch method immediately calls the registered native
re-entry `runStdFunctionImpl` with the same token, synchronously on the same
thread. -/
def invokeManagedDispatch {σ : Type} (attachEnv : Nat → Nat) (tid m token : Nat)
    (bs : BridgeState σ) : Except BridgeError (RunResult σ) :=
  match runStdFunctionImpl bs.heap token bs.store with
  | .error e => .error e
  | .ok (store', evs) =>
    .ok { events := Event.dispatchCall m token :: Event.reentry token :: evs
          esDuring := attachForCall attachEnv tid bs.env
          final := { bs with env := restoreAfterCall attachEnv tid bs.env
                             store := store' } }

/-- `JThreadScopeSupport::runStdFunction` (Environment.cpp:31-34): resolve
(first use) or read (thereafter) the cached managed dispatch method, encode
the closure's address as a `jlong` token, and invoke the managed dispatch
method with it on the calling thread. `funcAddr` is `&func`. -/
def runStdFunction {σ : Type} (resolve : Except Unit Nat) (attachEnv : Nat → Nat)
    (tid funcAddr : Nat) (bs : BridgeState σ) : Except BridgeError (RunResult σ) :=
  match resolveDispatchMethod bs.methodCache resolve with
  | .error e => .error e
  | .ok (m, cache') =>
    invokeManagedDispatch attachEnv tid m (encodeToken funcAddr)
      { bs with methodCache := cache' }

/-! ## Lazy once-only resolution of the dispatch method

`static auto method = ...;` inside `runStdFunction` is a C++11 block-scope
static: the language guarantees its initializer runs at most once process-wide,
with concurrent first callers serialized on an implicit guard, and every later
caller reads the cached value. `CacheStep resolved` is that semantics as an
atomic step relation on the cache cell: the first caller transitions the
uninitialized cell to the (deterministic) lookup result `resolved`; every
other access reads the cell unchanged. An interleaving of calls from any
number of threads is a `Relation.ReflTransGen (CacheStep resolved)` chain. -/

inductive CacheStep (resolved : Nat) : Option Nat → Option Nat → Prop where
  | init : CacheStep resolved none (some resolved)
  | read (m : Nat) : CacheStep resolved (some m) (some m)

/-! ## Native method registration (`OnLoad`) -/

/-- A native-method binding entry: the managed stub's name and its JNI type
signature. `makeNativeMethod` produces one from a C++ function. -/
structure NativeMethodDesc where
  name : String
  sig : String
deriving DecidableEq

/-- `makeNativeMethod("runStdFunctionImpl", runStdFunctionImpl)`: the entry
`OnLoad` registers — name `runStdFunctionImpl`, signature `(J)V` derived from
the C++ type `void(alias_ref<JClass>, jlong)`. -/
def runStdFunctionImplDesc : NativeMethodDesc :=
  { name := "runStdFunctionImpl", sig := "(J)V" }

/-- Modelled from the spec: `registerNatives` (fbjni `CoreClasses`, backed by
JNI `RegisterNatives`) is not under `src/`. Per the spec, each entry is bound
to a managed method stub by name and signature; an entry with no matching
declared stub rejects the load rather than succeeding as a no-op. `declared`
is the set of native-method stubs the managed class declares. -/
def registerNatives (declared entries : List NativeMethodDesc) : Except Unit Unit :=
  if entries.all (fun e => decide (e ∈ declared)) then .ok () else .error ()

/-- `JThreadScopeSupport::OnLoad` (Environment.cpp:40-46): register the single
native method `runStdFunctionImpl` against the managed
`com.facebook.jni.ThreadScopeSupport` class, whose declared stubs are
`declared`. -/
def OnLoad (declared : List NativeMethodDesc) : Except Unit Unit :=
  registerNatives declared [runStdFunctionImplDesc]

/-! ## Helper lemmas -/

/-- Any cache state reachable from the uninitialized cell is still
uninitialized or holds the lookup result. -/
theorem cacheStep_reachable_inv (resolved : Nat) (s : Option Nat)
    (h : Relation.ReflTransGen (CacheStep resolved) none s) :
    s = none ∨ s = some resolved := by
  induction h with
  | refl => exact Or.inl rfl
  | tail _ hstep ih =>
    cases hstep with
    | init => exact Or.inr rfl
    | read m =>
      rcases ih with h' | h'
      · exact absurd h' (by simp)
      · exact Or.inr h'

/-- Once the cache cell holds a value, every later state holds that same
value. -/
theorem cacheStep_stable (resolved m : Nat) (s : Option Nat)
    (h : Relation.ReflTransGen (CacheStep resolved) (some m) s) :
    s = some m := by
  induction h with
  | refl => rfl
  | tail _ hstep ih =>
    cases hstep with
    | init => simp at ih
    | read m' => rw [← ih]

/-- Cache-hit behaviour of `current`: a non-null thread-local slot is
returned as-is, with no VM query and no state change. -/
theorem current_cacheHit (s : EnvState) (tid e : Nat)
    (hc : s.g_env tid = some e) :
    (current tid s).ret = some e ∧ (current tid s).vmQueries = 0 ∧
      (current tid s).st = s := by
  refine ⟨?_, ?_, ?_⟩ <;> simp [current, hc]

/-- On a thread the VM reports as attached, `current` never returns the null
env once the VM handle is registered. -/
theorem current_ret_of_attached (s : EnvState) (tid : Nat)
    (hvm : s.g_vm ≠ none) (hatt : s.vmAttached tid ≠ none) :
    (current tid s).ret ≠ none := by
  cases hg : s.g_env tid with
  | some e => simp [current, hg]
  | none =>
    cases hv : s.vmAttached tid with
    | none => exact absurd hv hatt
    | some e => simp [current, getEnv, hg, hv, hvm]

/-- A `jlong`-sized address survives the pointer-to-`jlong`-to-pointer round
trip unchanged. -/
theorem decode_encode (addr : Nat) (h : addr < 2 ^ 64) :
    decodeToken (encodeToken addr) = addr := by
  unfold decodeToken encodeToken
  rw [Nat.mod_mod_of_dvd addr (dvd_refl (2 ^ 64)), Nat.mod_eq_of_lt h]

/-- During the managed call, the calling thread is attached. -/
theorem attachForCall_attached (attachEnv : Nat → Nat) (tid : Nat)
    (es : EnvState) : (attachForCall attachEnv tid es).vmAttached tid ≠ none := by
  cases h : es.vmAttached tid <;> simp [attachForCall, h]

/-- Attaching for the call touches only the VM's attachment table. -/
theorem attachForCall_g_vm (attachEnv : Nat → Nat) (tid : Nat) (es : EnvState) :
    (attachForCall attachEnv tid es).g_vm = es.g_vm ∧
      (attachForCall attachEnv tid es).g_env = es.g_env := by
  cases h : es.vmAttached tid <;> simp [attachForCall, h]

/-- Restoring after the call touches only the VM's attachment table. -/
theorem restoreAfterCall_g_vm (attachEnv : Nat → Nat) (tid : Nat) (es : EnvState) :
    (restoreAfterCall attachEnv tid es).g_vm = es.g_vm ∧
      (restoreAfterCall attachEnv tid es).g_env = es.g_env := by
  cases h : es.vmAttached tid <;>
    simp [restoreAfterCall, attachForCall, h]

/-- Full characterization of a successful `runStdFunction` round trip: with
the dispatch method resolvable (already cached, or resolved on this first
use) and a live closure `c` at `funcAddr`, the call produces exactly one
dispatch call, one re-entry and one closure invocation, runs the closure on
the caller's store, caches the method, and leaves the heap alone. -/
theorem runStdFunction_ok (σ : Type) (resolve : Except Unit Nat)
    (attachEnv : Nat → Nat) (tid funcAddr m : Nat) (bs : BridgeState σ)
    (c : σ → σ)
    (hm : bs.methodCache = some m ∨ (bs.methodCache = none ∧ resolve = Except.ok m))
    (hheap : bs.heap funcAddr = some c) (haddr : funcAddr < 2 ^ 64) :
    runStdFunction resolve attachEnv tid funcAddr bs =
      .ok { events := [Event.dispatchCall m (encodeToken funcAddr),
                       Event.reentry (encodeToken funcAddr),
                       Event.closureInvoked funcAddr]
            esDuring := attachForCall attachEnv tid bs.env
            final := { env := restoreAfterCall attachEnv tid bs.env
                       methodCache := some m
                       heap := bs.heap
                       store := c bs.store } } := by
  have hdec := decode_encode funcAddr haddr
  have himpl : runStdFunctionImpl bs.heap (encodeToken funcAddr) bs.store =
      .ok (c bs.store, [Event.closureInvoked funcAddr]) := by
    simp [runStdFunctionImpl, hdec, hheap]
  rcases hm with hm | ⟨hm, hres⟩
  · simp [runStdFunction, resolveDispatchMethod, invokeManagedDispatch, hm, himpl]
  · simp [runStdFunction, resolveDispatchMethod, invokeManagedDispatch, hm,
      hres, himpl]

/-- A successful `runStdFunction` never changes the process-wide VM handle or
any thread's thread-local env slot. -/
theorem runStdFunction_preserves_g_vm (σ : Type) (resolve : Except Unit Nat)
    (attachEnv : Nat → Nat) (tid a : Nat) (bs : BridgeState σ) (r : RunResult σ)
    (hr : runStdFunction resolve attachEnv tid a bs = .ok r) :
    r.final.env.g_vm = bs.env.g_vm ∧ r.final.env.g_env = bs.env.g_env := by
  unfold runStdFunction invokeManagedDispatch at hr
  split at hr
  · cases hr
  · split at hr
    · cases hr
    · injection hr with hr
      subst hr
      simpa using restoreAfterCall_g_vm attachEnv tid bs.env

/-! ## Concrete states used by witnesses and the counterexample -/

/-- A process where the VM handle was never registered and no thread is
attached. -/
def sUnregistered : EnvState :=
  { g_env := fun _ => none, g_vm := none, vmAttached := fun _ => none }

/-- A process with the VM handle registered, thread 0 holding a cached env
`7`, and no thread attached per the VM's own table. -/
def sCached : EnvState :=
  { g_env := fun t => if t = 0 then some 7 else none
    g_vm := some 1
    vmAttached := fun _ => none }

/-- A process with the VM handle registered but no cached env and no thread
attached: the query-failure path of `current`. -/
def sQueryFail : EnvState :=
  { g_env := fun _ => none, g_vm := some 1, vmAttached := fun _ => none }

/-! ## Claims -/

/-- C10: if the calling thread's thread-local slot holds a non-null handle,
`current` returns that handle without consulting the process-wide VM handle at
all — the cache-hit path succeeds even when `g_vm` was never registered
(`none`), with zero VM queries and no state change, because the registration
check is only reached when the cached value is null. -/
theorem current_cacheHit_ignores_vm (s : EnvState) (tid e : Nat)
    (hc : s.g_env tid = some e) (_hvm : s.g_vm = none) :
    (current tid s).ret = some e ∧ (current tid s).vmQueries = 0 ∧
      (current tid s).st = s :=
  current_cacheHit s tid e hc

/-- Witness for C10 at a concrete state: thread 0 of `sCachedNoVM` holds
cached env `9` while `g_vm` is null; `current` returns `9` with no query. -/
def sCachedNoVM : EnvState :=
  { g_env := fun t => if t = 0 then some 9 else none
    g_vm := none
    vmAttached := fun _ => none }

theorem current_cacheHit_ignores_vm_witness :
    sCachedNoVM.g_env 0 = some 9 ∧ sCachedNoVM.g_vm = none ∧
      ((current 0 sCachedNoVM).ret = some 9 ∧
        (current 0 sCachedNoVM).vmQueries = 0 ∧
        (current 0 sCachedNoVM).st = sCachedNoVM) :=
  ⟨rfl, rfl, current_cacheHit_ignores_vm sCachedNoVM 0 9 rfl rfl⟩

/-- C3: a thread whose thread-local slot holds a non-null handle gets that
cached handle from every `current` call with zero VM queries and no state
change; moreover, after any successful call (one resolution), the next call
on the same thread returns the same non-null handle with zero further VM
queries. -/
theorem current_cached_no_requery (s : EnvState) (tid e : Nat)
    (hc : s.g_env tid = some e) :
    (current tid s).ret = some e ∧ (current tid s).vmQueries = 0 ∧
      (current tid s).st = s ∧
      (∀ s0 e0, (current tid s0).ret = some e0 →
        (current tid (current tid s0).st).ret = some e0 ∧
        (current tid (current tid s0).st).vmQueries = 0) := by
  obtain ⟨h1, h2, h3⟩ := current_cacheHit s tid e hc
  refine ⟨h1, h2, h3, ?_⟩
  intro s0 e0 hret
  by_cases h0 : s0.g_env tid = none ∧ s0.g_vm ≠ none
  · cases hv : getEnv s0 tid with
    | none => simp [current, h0, hv] at hret
    | some e1 =>
      have hret' : e1 = e0 := by simp [current, h0, hv] at hret; exact hret
      subst hret'
      have hst : (current tid s0).st.g_env tid = some e1 := by
        simp [current, h0, hv]
      have h4 := current_cacheHit _ tid e1 hst
      exact ⟨h4.1, h4.2.1⟩
  · have hst : (current tid s0).st = s0 := by simp [current, h0]
    have hret' : s0.g_env tid = some e0 := by
      simpa [current, h0] using hret
    rw [hst]
    have h4 := current_cacheHit s0 tid e0 hret'
    exact ⟨h4.1, h4.2.1⟩

/-- Witness for C3 at the concrete state `sCached`: thread 0 holds cached env
`7`; `current` returns it with zero queries, unchanged state, and repeated
calls stay stable. -/
theorem current_cached_no_requery_witness :
    sCached.g_env 0 = some 7 ∧
      ((current 0 sCached).ret = some 7 ∧ (current 0 sCached).vmQueries = 0 ∧
        (current 0 sCached).st = sCached ∧
        (∀ s0 e0, (current 0 s0).ret = some e0 →
          (current 0 (current 0 s0).st).ret = some e0 ∧
          (current 0 (current 0 s0).st).vmQueries = 0)) :=
  ⟨rfl, current_cached_no_requery sCached 0 7 rfl⟩

/-- C2 counterexample: the claim asserts that whenever resolution fails —
the per-thread query fails OR the VM handle was never registered — `current`
logs a diagnostic identifying the thread as unattached. At the concrete state
`sUnregistered` (VM handle never registered, thread 0 unattached, empty slot)
the code takes the early-exit branch — the condition
`(env == nullptr) && (g_vm != nullptr)` is false — and returns the null env
WITHOUT logging anything, so the claim as stated is false there. -/
theorem current_unregistered_no_log_counterexample :
    ¬ (sUnregistered.g_env 0 = none →
       (sUnregistered.g_vm = none ∨ sUnregistered.vmAttached 0 = none) →
       (current 0 sUnregistered).ret = none ∧
         (current 0 sUnregistered).logs ≠ [] ∧
         (current 0 sUnregistered).st = sUnregistered) := by
  intro h
  have h2 := h rfl (Or.inl rfl)
  exact h2.2.1 (by simp [current, sUnregistered])

/-- C2 amended: on every resolution failure (per-thread query fails, or the
VM handle was never registered) `current` returns the null env, leaves the
state unchanged (in particular it does not attach the thread), issues at most
one VM query, and the unattached-thread diagnostic is logged exactly when the
VM handle IS registered and the per-thread query fails; when the VM handle
was never registered, `current` fails silently without logging. -/
theorem current_notAttached_null_silent_when_unregistered (s : EnvState)
    (tid : Nat) (h1 : s.g_env tid = none)
    (h2 : s.g_vm = none ∨ s.vmAttached tid = none) :
    (current tid s).ret = none ∧ (current tid s).st = s ∧
      (current tid s).vmQueries ≤ 1 ∧
      (s.g_vm ≠ none → (current tid s).logs = [notAttachedMsg]) ∧
      (s.g_vm = none → (current tid s).logs = []) := by
  by_cases hg : s.g_vm = none
  · refine ⟨?_, ?_, ?_, fun hvm => absurd hg hvm, fun _ => ?_⟩ <;>
      simp [current, h1, hg]
  · have hva : s.vmAttached tid = none := h2.resolve_left hg
    refine ⟨?_, ?_, ?_, fun _ => ?_, fun hvm => absurd hvm hg⟩ <;>
      simp [current, getEnv, h1, hg, hva]

/-- Witness for C2's amended theorem at the concrete state `sQueryFail`
(VM registered, thread 0 unattached): null return, unchanged state, one
query, and the diagnostic logged. -/
theorem current_notAttached_witness :
    sQueryFail.g_env 0 = none ∧
      (sQueryFail.g_vm = none ∨ sQueryFail.vmAttached 0 = none) ∧
      ((current 0 sQueryFail).ret = none ∧ (current 0 sQueryFail).st = sQueryFail ∧
        (current 0 sQueryFail).vmQueries ≤ 1 ∧
        (sQueryFail.g_vm ≠ none → (current 0 sQueryFail).logs = [notAttachedMsg]) ∧
        (sQueryFail.g_vm = none → (current 0 sQueryFail).logs = [])) :=
  ⟨rfl, Or.inr rfl,
    current_notAttached_null_silent_when_unregistered sQueryFail 0 rfl (Or.inr rfl)⟩

/-- C9: `current` signals the `NotAttached` condition solely through its
return value — the returned env is null exactly when the thread-local slot is
empty and either the VM handle was never registered or the per-thread query
fails; the embedding is a total function with no exception channel, matching
the code, which logs and falls through rather than throwing or aborting. -/
theorem current_null_iff_notAttached (s : EnvState) (tid : Nat) :
    (current tid s).ret = none ↔
      (s.g_env tid = none ∧ (s.g_vm = none ∨ s.vmAttached tid = none)) := by
  cases hg : s.g_env tid with
  | some e =>
    have h := current_cacheHit s tid e hg
    simp [h.1, hg]
  | none =>
    by_cases hv : s.g_vm = none
    · simp [current, hg, hv]
    · cases ha : s.vmAttached tid with
      | none => simp [current, getEnv, hg, hv, ha]
      | some e => simp [current, getEnv, hg, hv, ha]

/-! ## Concrete bridge states used by witnesses -/

/-- A bridge state with the VM registered, the dispatch method already
cached as `3`, and a closure (`Nat.succ`, a shared-counter increment) living
at address `100`. -/
def bsW : BridgeState Nat :=
  { env := sQueryFail
    methodCache := some 3
    heap := fun a => if a = 100 then some Nat.succ else none
    store := 0 }

/-- A bridge state before first use: no cached dispatch method. -/
def bsNoCache : BridgeState Nat :=
  { env := sQueryFail
    methodCache := none
    heap := fun _ => none
    store := 0 }

/-- A heap with a doubling closure at address `42`. -/
def heapW : Nat → Option (Nat → Nat) :=
  fun a => if a = 42 then some (fun n => n * 2) else none

/-- C4: the callback token is the closure's address encoded as an integer
(`reinterpret_cast<jlong>`), and `runStdFunctionImpl` decodes it back to a
reference to the very same closure and invokes it: `decode (encode addr)`
addresses exactly the closure object that was encoded. -/
theorem token_roundtrip (σ : Type) (heap : Nat → Option (σ → σ)) (addr : Nat)
    (c : σ → σ) (st : σ) (ha : addr < 2 ^ 64) (hc : heap addr = some c) :
    decodeToken (encodeToken addr) = addr ∧
      heap (decodeToken (encodeToken addr)) = some c ∧
      runStdFunctionImpl heap (encodeToken addr) st =
        .ok (c st, [Event.closureInvoked addr]) := by
  have h1 := decode_encode addr ha
  refine ⟨h1, by rw [h1]; exact hc, ?_⟩
  simp [runStdFunctionImpl, h1, hc]

/-- Witness for C4: the doubling closure at address `42` of `heapW` survives
the token round trip and runs once on store `21`. -/
theorem token_roundtrip_witness :
    (42 : Nat) < 2 ^ 64 ∧ heapW 42 = some (fun n => n * 2) ∧
      (decodeToken (encodeToken 42) = 42 ∧
        heapW (decodeToken (encodeToken 42)) = some (fun n => n * 2) ∧
        runStdFunctionImpl heapW (encodeToken 42) 21 =
          .ok (21 * 2, [Event.closureInvoked 42])) :=
  ⟨by norm_num, by simp [heapW],
    token_roundtrip Nat heapW 42 (fun n => n * 2) 21 (by norm_num) (by simp [heapW])⟩

/-- C1: with the dispatch method resolvable and a live closure `c` at
`funcAddr`, `runStdFunction` succeeds, its trace is exactly one managed
dispatch call, one native re-entry and one closure invocation (the closure
executes exactly once, synchronously, before the call returns, all on the
calling thread `tid`), the closure's effect is applied to the store exactly
once, the calling thread is attached to the VM while the closure runs, and a
`current` call made from inside the closure returns a non-null handle. -/
theorem runOnAttachedThread_executes_once (σ : Type) (resolve : Except Unit Nat)
    (attachEnv : Nat → Nat) (tid funcAddr m : Nat) (bs : BridgeState σ)
    (c : σ → σ)
    (hm : bs.methodCache = some m ∨ (bs.methodCache = none ∧ resolve = Except.ok m))
    (hheap : bs.heap funcAddr = some c) (haddr : funcAddr < 2 ^ 64)
    (hvm : bs.env.g_vm ≠ none) :
    ∃ r, runStdFunction resolve attachEnv tid funcAddr bs = .ok r ∧
      r.events = [Event.dispatchCall m (encodeToken funcAddr),
                  Event.reentry (encodeToken funcAddr),
                  Event.closureInvoked funcAddr] ∧
      (r.events.filter Event.isClosureInvoked).length = 1 ∧
      r.final.store = c bs.store ∧
      r.esDuring.vmAttached tid ≠ none ∧
      (current tid r.esDuring).ret ≠ none := by
  refine ⟨_, runStdFunction_ok σ resolve attachEnv tid funcAddr m bs c hm hheap haddr,
    rfl, ?_, rfl, attachForCall_attached attachEnv tid bs.env, ?_⟩
  · simp [List.filter, Event.isClosureInvoked]
  · refine current_ret_of_attached _ tid ?_ (attachForCall_attached attachEnv tid bs.env)
    rw [(attachForCall_g_vm attachEnv tid bs.env).1]
    exact hvm

/-- Witness for C1 at the concrete bridge state `bsW`: the counter-increment
closure at address `100` runs exactly once and sees a non-null `current`. -/
theorem runOnAttachedThread_executes_once_witness :
    (bsW.methodCache = some 3 ∨
        (bsW.methodCache = none ∧ (Except.ok 3 : Except Unit Nat) = Except.ok 3)) ∧
      bsW.heap 100 = some Nat.succ ∧ (100 : Nat) < 2 ^ 64 ∧ bsW.env.g_vm ≠ none ∧
      (∃ r, runStdFunction (Except.ok 3) (fun t => t + 5) 0 100 bsW = .ok r ∧
        r.events = [Event.dispatchCall 3 (encodeToken 100),
                    Event.reentry (encodeToken 100),
                    Event.closureInvoked 100] ∧
        (r.events.filter Event.isClosureInvoked).length = 1 ∧
        r.final.store = Nat.succ bsW.store ∧
        r.esDuring.vmAttached 0 ≠ none ∧
        (current 0 r.esDuring).ret ≠ none) :=
  ⟨Or.inl rfl, by simp [bsW], by norm_num, by simp [bsW, sQueryFail],
    runOnAttachedThread_executes_once Nat (Except.ok 3) (fun t => t + 5) 0 100 3
      bsW Nat.succ (Or.inl rfl) (by simp [bsW]) (by norm_num)
      (by simp [bsW, sQueryFail])⟩

/-- C7: if the managed dispatch method cannot be resolved (class or method
lookup failure) on first use (nothing cached yet), `runStdFunction` fails
with the fatal `wiringFailure` — it does not return a recoverable result and
does not continue to the dispatch. -/
theorem run_wiringFailure_fatal (σ : Type) (resolve : Except Unit Nat)
    (attachEnv : Nat → Nat) (tid funcAddr : Nat) (bs : BridgeState σ)
    (hc : bs.methodCache = none) (hr : resolve = Except.error ()) :
    runStdFunction resolve attachEnv tid funcAddr bs = .error .wiringFailure := by
  simp [runStdFunction, resolveDispatchMethod, hc, hr]

/-- Witness for C7 at the concrete state `bsNoCache` with a failing lookup. -/
theorem run_wiringFailure_fatal_witness :
    bsNoCache.methodCache = none ∧
      runStdFunction (Except.error ()) (fun t => t + 5) 0 100 bsNoCache =
        .error .wiringFailure :=
  ⟨rfl, run_wiringFailure_fatal Nat (Except.error ()) (fun t => t + 5) 0 100
    bsNoCache rfl rfl⟩

/-- C5: `registerVM` called again with the handle already registered is an
accepting no-op; called with a different handle it is rejected with
`doubleRegistration` and never silently accepted; any accepted registration
over an already-set cell preserves the existing handle; and no other
operation — `current` or a successful `runStdFunction` — ever changes the
process-wide VM handle. -/
theorem registerVM_first_writer_wins (σ : Type) (h h' x : Nat) (hne : h' ≠ h) :
    registerVM h (some h) = .ok (some h) ∧
      registerVM h' (some h) = .error .doubleRegistration ∧
      (∀ g r, registerVM x g = .ok r → ∀ v, g = some v → r = some v) ∧
      (∀ tid s, (current tid s).st.g_vm = s.g_vm) ∧
      (∀ resolve attachEnv tid a (bs : BridgeState σ) r,
        runStdFunction resolve attachEnv tid a bs = .ok r →
        r.final.env.g_vm = bs.env.g_vm) := by
  have hne' : h ≠ h' := Ne.symm hne
  refine ⟨by simp [registerVM], by simp [registerVM, hne'], ?_, ?_, ?_⟩
  · intro g r hr v hg
    subst hg
    simp only [registerVM] at hr
    split at hr
    · injection hr with hr
      exact hr.symm
    · cases hr
  · intro tid s
    by_cases h0 : s.g_env tid = none ∧ s.g_vm ≠ none
    · cases hv : getEnv s tid <;> simp [current, h0, hv]
    · simp [current, h0]
  · intro resolve attachEnv tid a bs r hr
    exact (runStdFunction_preserves_g_vm σ resolve attachEnv tid a bs r hr).1

/-- Witness for C5 at handles `1` and `2`. -/
theorem registerVM_first_writer_wins_witness :
    (2 : Nat) ≠ 1 ∧
      (registerVM 1 (some 1) = .ok (some 1) ∧
        registerVM 2 (some 1) = .error .doubleRegistration ∧
        (∀ g r, registerVM 3 g = .ok r → ∀ v, g = some v → r = some v) ∧
        (∀ tid s, (current tid s).st.g_vm = s.g_vm) ∧
        (∀ resolve attachEnv tid a (bs : BridgeState Nat) r,
          runStdFunction resolve attachEnv tid a bs = .ok r →
          r.final.env.g_vm = bs.env.g_vm)) :=
  ⟨by decide, registerVM_first_writer_wins Nat 1 2 3 (by decide)⟩

/-- C6: reading the once-only cache semantics of the block-scope
`static auto method` local (`CacheStep`): from the uninitialized cell, any
interleaving of first-caller-resolves and subsequent reads keeps the cell at
the single deterministic lookup result, so two callers that each observe a
cached method observe the same one — a race can never produce two distinct
cached references. In the code path, `resolveDispatchMethod` with a
successful lookup yields the cached value for first and later callers
alike. -/
theorem dispatchMethod_resolved_at_most_once (resolved : Nat)
    (s1 s2 : Option Nat) (m1 m2 : Nat)
    (h01 : Relation.ReflTransGen (CacheStep resolved) none s1)
    (h12 : Relation.ReflTransGen (CacheStep resolved) s1 s2)
    (hm1 : s1 = some m1) (hm2 : s2 = some m2) :
    m1 = resolved ∧ m2 = m1 ∧
      (∀ cache m' c',
        resolveDispatchMethod cache (Except.ok resolved) = .ok (m', c') →
        cache = none ∨ cache = some resolved →
        m' = resolved ∧ c' = some resolved) := by
  have ha : s1 = some resolved := by
    rcases cacheStep_reachable_inv resolved s1 h01 with h | h
    · rw [h] at hm1; cases hm1
    · exact h
  have hm1' : m1 = resolved := by
    rw [ha] at hm1
    injection hm1 with h
    exact h.symm
  have hb : s2 = some m1 := by
    rw [hm1] at h12
    exact cacheStep_stable resolved m1 s2 h12
  have hm2' : m2 = m1 := by
    rw [hb] at hm2
    injection hm2 with h
    exact h.symm
  refine ⟨hm1', hm2', ?_⟩
  intro cache m' c' hres hcache
  rcases hcache with hcache | hcache <;> subst hcache <;>
    simp [resolveDispatchMethod] at hres <;>
    exact ⟨hres.1.symm, hres.2.symm⟩

/-- Witness for C6: a two-thread interleaving — thread A resolves first,
thread B then reads — both observe method `5`. -/
theorem dispatchMethod_resolved_at_most_once_witness :
    Relation.ReflTransGen (CacheStep 5) none (some 5) ∧
      Relation.ReflTransGen (CacheStep 5) (some 5) (some 5) ∧
      ((5 : Nat) = 5 ∧ (5 : Nat) = 5 ∧
        (∀ cache m' c',
          resolveDispatchMethod cache (Except.ok 5) = .ok (m', c') →
          cache = none ∨ cache = some 5 →
          m' = 5 ∧ c' = some 5)) :=
  ⟨Relation.ReflTransGen.single CacheStep.init,
    Relation.ReflTransGen.single (CacheStep.read 5),
    dispatchMethod_resolved_at_most_once 5 (some 5) (some 5) 5 5
      (Relation.ReflTransGen.single CacheStep.init)
      (Relation.ReflTransGen.single (CacheStep.read 5)) rfl rfl⟩

/-- C8: `OnLoad` binds the native re-entry by name and signature against the
managed class's declared stubs: when the class declares a stub matching
`runStdFunctionImpl` with signature `(J)V` the load succeeds, and when no
declared stub matches (wrong name or wrong signature) the load is rejected
rather than succeeding as a silent no-op. -/
theorem onLoad_rejects_mismatch (declared : List NativeMethodDesc) :
    (runStdFunctionImplDesc ∈ declared → OnLoad declared = .ok ()) ∧
      (runStdFunctionImplDesc ∉ declared → OnLoad declared = .error ()) := by
  constructor <;> intro h <;> simp [OnLoad, registerNatives, h]

/-- The stubs of a managed class declaring `runStdFunctionImpl` with the
right signature. -/
def declaredGood : List NativeMethodDesc := [runStdFunctionImplDesc]

/-- The stubs of a managed class whose only stub has a mismatching
signature. -/
def declaredBad : List NativeMethodDesc :=
  [{ name := "runStdFunctionImpl", sig := "(I)V" }]

/-- Witness for C8: the matching declaration loads, the mismatching one is
rejected. -/
theorem onLoad_rejects_mismatch_witness :
    (runStdFunctionImplDesc ∈ declaredGood ∧ OnLoad declaredGood = .ok ()) ∧
      (runStdFunctionImplDesc ∉ declaredBad ∧ OnLoad declaredBad = .error ()) :=
  ⟨⟨by simp [declaredGood],
    (onLoad_rejects_mismatch declaredGood).1 (by simp [declaredGood])⟩,
   ⟨by simp [declaredBad, runStdFunctionImplDesc],
    (onLoad_rejects_mismatch declaredBad).2
      (by simp [declaredBad, runStdFunctionImplDesc])⟩⟩

end Litho
